import Mathlib

/-!
# Verification of the BioGuard conflict-graph and nutrition-resolution core

Shallow embedding of the ingredient-conflict knowledge graph
(`src/database/db_manager.py`), the multi-source nutrition resolver
(`src/services/nutrition_api.py`), the AI engine provider fallback
(`src/services/engine.py`) and the conflict-warning merge step of the
camera pipeline (`src/ui_components/camera_view.py`), together with
theorems settling the specification's claims about them.
-/

/-! ## Conflict graph (db_manager.py)

A NetworkX `DiGraph` restricted to what the code uses: string nodes and
one directed edge per ordered pair, carrying `relationship` and
`severity` attributes.  Edges are kept in insertion order; re-inserting
an existing pair overwrites its attributes in place, as
`DiGraph.add_edge` does. -/

structure EdgeData where
  relationship : String
  severity : String
deriving DecidableEq, Repr

/-- The knowledge graph: directed edges `(source, target, data)` in
insertion order, at most one edge per ordered pair. -/
abbrev HealthGraph := List (String × String × EdgeData)

/-- `DiGraph.add_edge`: overwrite the attributes of an existing edge in
place, otherwise append the new edge. -/
def addEdge (g : HealthGraph) (u v : String) (d : EdgeData) : HealthGraph :=
  if g.any (fun e => e.1 = u ∧ e.2.1 = v) then
    g.map (fun e => if e.1 = u ∧ e.2.1 = v then (u, v, d) else e)
  else g ++ [(u, v, d)]

/-- Python `x in graph`: node membership (a node exists once it is the
source or the target of some edge). -/
def nodeMem (g : HealthGraph) (x : String) : Bool :=
  g.any (fun e => e.1 = x ∨ e.2.1 = x)

/-- `graph.successors(x)`: targets of the outgoing edges of `x`, in
adjacency (= insertion) order. -/
def successorsOf (g : HealthGraph) (x : String) : List String :=
  (g.filter (fun e => e.1 = x)).map (fun e => e.2.1)

/-- `graph.edges[u, v]` followed by `.get('relationship', '')` and
`.get('severity', 'medium')`. -/
def edgeDataOf (g : HealthGraph) (u v : String) : EdgeData :=
  match g.find? (fun e => e.1 = u ∧ e.2.1 = v) with
  | some e => e.2.2
  | none => ⟨"", "medium"⟩

/-- The seed list of `DBManager._populate_health_graph`. -/
def conflictSeedEdges : List (String × String × String × String) :=
  [("sodium", "hypertension", "increases_risk", "high"),
   ("sodium", "blood_pressure", "increases", "high"),
   ("sugar", "diabetes", "increases_risk", "high"),
   ("sugar", "glucose_spike", "causes", "high"),
   ("saturated_fat", "cholesterol", "increases", "high"),
   ("preservatives", "digestive_health", "harms", "medium"),
   ("artificial_colors", "hyperactivity", "may_trigger", "low"),
   ("gluten", "celiac_disease", "triggers", "high"),
   ("lactose", "lactose_intolerance", "triggers", "high"),
   ("peanuts", "peanut_allergy", "triggers", "high"),
   ("trans_fat", "heart_disease", "increases_risk", "high")]

/-- The graph built by `DBManager._populate_health_graph`. -/
def populatedHealthGraph : HealthGraph :=
  conflictSeedEdges.foldl
    (fun g e => addEdge g e.1 e.2.1 ⟨e.2.2.1, e.2.2.2⟩) []

/-- Python `s.lower()`: lower-case every character (character-list
implementation, so that it evaluates inside the kernel). -/
def pyLower (s : String) : String := ⟨s.data.map Char.toLower⟩

/-- Python `s.strip()`: drop whitespace from both ends. -/
def pyStrip (s : String) : String :=
  ⟨((s.data.dropWhile Char.isWhitespace).reverse.dropWhile
      Char.isWhitespace).reverse⟩

/-- Python `s.lower().strip()`. -/
def pyLowerStrip (s : String) : String := pyStrip (pyLower s)

/-- Substring test on character lists (the needle occurs contiguously in
the haystack). -/
def containsSub (needle : List Char) : List Char → Bool
  | [] => needle.isEmpty
  | c :: rest => needle.isPrefixOf (c :: rest) || containsSub needle rest

/-- Python `needle in haystack` on strings. -/
def pyIn (needle haystack : String) : Bool :=
  containsSub needle.toList haystack.toList

/-- One entry of the list returned by `find_conflicts_in_graph`. -/
structure ConflictMatch where
  ingredient : String
  health_condition : String
  relationship : String
  severity : String
deriving DecidableEq, Repr

/-- `DBManager.find_conflicts_in_graph`: for each ingredient
(lower-cased and stripped) that is a graph node, emit one match per
successor whose lower-cased label has some caller condition's
lower-cased text as a substring. -/
def findConflictsInGraph (g : HealthGraph)
    (ingredients medicalConditions : List String) : List ConflictMatch :=
  ingredients.foldr
    (fun ingredient acc =>
      (let il := pyLowerStrip ingredient
       if nodeMem g il then
         (successorsOf g il).filterMap (fun succ =>
           if medicalConditions.any (fun cond => pyIn (pyLower cond) (pyLower succ)) then
             some ⟨ingredient, succ, (edgeDataOf g il succ).relationship,
                   (edgeDataOf g il succ).severity⟩
           else none)
       else []) ++ acc)
    []

/-- Modelled from the spec: `add_relationship(ingredient, condition,
relationship, severity)` — the ConflictGraph mutation operation of
spec §4.1 is absent from the sources (only `_populate_health_graph`'s
direct `add_edge` calls appear).  Per §4.1 it "inserts or overwrites
the edge for that ordered pair" and per §3 "ingredient and condition
keys are case-folded and whitespace-trimmed before storage". -/
def addRelationship (g : HealthGraph)
    (ingredient condition relationship severity : String) : HealthGraph :=
  addEdge g (pyLowerStrip ingredient) (pyLowerStrip condition)
    ⟨relationship, severity⟩

/-! ## AI engine (engine.py)

`analyze_image` tries vision providers in the order built by
`_build_provider_order`, collecting one error string per failed attempt.
The body of each provider attempt (the network call of
`_analyze_with_gemini` / `_analyze_with_openai`, and `_mock_analysis`)
is abstracted as an oracle mapping a provider id to either an analysis
record or the text of the exception it raises. -/

/-- The analysis record `{product, health_score, verdict, warnings}`. -/
structure Analysis where
  product : String
  health_score : Int
  verdict : String
  warnings : List String
deriving DecidableEq, Repr

/-- The record returned by `_mock_analysis`. -/
def mockAnalysis : Analysis :=
  ⟨"Mock Snack", 72, "WARNING", ["High sugar", "Moderate sodium"]⟩

/-- `_build_provider_order`. -/
def buildProviderOrder (preferred : String) : List String :=
  let p := pyLower preferred
  let order := if p = "gemini" ∨ p = "openai" then [p] else []
  let order := if p ≠ "gemini" then order ++ ["gemini"] else order
  let order := if p ≠ "openai" then order ++ ["openai"] else order
  order ++ ["mock"]

/-- The provider loop of `analyze_image`: a raised exception is caught,
recorded as `provider ++ ": " ++ message`, and the next provider is
tried; a successful mock result gets the accumulated errors appended to
its warnings; when the loop ends, the neutral fallback record is
returned. -/
def analyzeImageLoop (oracle : String → Except String Analysis) :
    List String → List String → Analysis
  | [], errors =>
    ⟨"Unknown", 50, "WARNING",
     if errors.isEmpty then ["No provider succeeded"] else errors⟩
  | p :: rest, errors =>
    if p = "gemini" ∨ p = "openai" then
      match oracle p with
      | .ok r => r
      | .error e => analyzeImageLoop oracle rest (errors ++ [p ++ ": " ++ e])
    else if p = "mock" then
      match oracle p with
      | .ok r =>
        if errors.isEmpty then r
        else { r with warnings := r.warnings ++ errors }
      | .error e => analyzeImageLoop oracle rest (errors ++ [p ++ ": " ++ e])
    else analyzeImageLoop oracle rest errors

/-- `analyze_image(image_bytes, preferred_provider)`: the image is fixed
inside `oracle`. -/
def analyzeImage (oracle : String → Except String Analysis)
    (preferred : String) : Analysis :=
  analyzeImageLoop oracle (buildProviderOrder preferred) []

/-! ## Conflict-warning merge step of the scan pipeline (camera_view.py)

After `analyze_image_sync` returns and the knowledge graph has produced
a list of conflict matches, `_render_camera_inner` attaches the matches
to the result and appends a warning line per match, capped at the first
three. -/

/-- The slice of the scan result the merge step touches. -/
structure ScanResult where
  product : String
  health_score : Int
  verdict : String
  warnings : List String
  health_conflicts : List ConflictMatch
deriving DecidableEq, Repr

/-- The warning line built for one conflict match. -/
def conflictWarningLine (c : ConflictMatch) : String :=
  "⚠️ " ++ c.ingredient ++ " may affect " ++ c.health_condition

/-- The `if conflicts:` block of `_render_camera_inner`: store the full
match list under `health_conflicts` and extend `warnings` with one line
per match of `conflicts[:3]`. -/
def applyConflictWarnings (result : ScanResult)
    (conflicts : List ConflictMatch) : ScanResult :=
  if conflicts.isEmpty then result
  else
    { result with
      health_conflicts := conflicts,
      warnings := result.warnings ++ (conflicts.take 3).map conflictWarningLine }

/-! ## Nutrition API (nutrition_api.py)

The five provider adapters and `get_nutrition`.  JSON payloads are
modelled by `JVal`; an HTTP response is a status code plus either a
parsed body or `none` when `resp.json()` would fail.  A `requests`
call that raises is modelled as the endpoint returning `none`.  Python
dictionaries are association lists; the attribute/parse errors the code
can raise are collected in `PyErr` and returned through `Except`
(`.error` = the Python code raises at that point). -/

/-- A parsed JSON value. -/
inductive JVal where
  | jnull
  | jbool (b : Bool)
  | jnum (n : Int)
  | jstr (s : String)
  | jarr (elems : List JVal)
  | jobj (fields : List (String × JVal))

/-- Exceptions the adapter bodies can raise outside the `try` blocks. -/
inductive PyErr where
  /-- `resp.json()` on an unparseable body. -/
  | jsonDecodeError
  /-- `.get` on a value that is not a dict. -/
  | attributeError
  /-- indexing / iterating a value of the wrong type. -/
  | typeError
deriving DecidableEq, Repr

/-- Python `d.get(k)` on a known dict (`None` when the key is absent). -/
def dGet (fields : List (String × JVal)) (k : String) : JVal :=
  (List.lookup k fields).getD .jnull

/-- Python `d.get(k, default)` on a known dict. -/
def dGetD (fields : List (String × JVal)) (k : String) (dflt : JVal) : JVal :=
  (List.lookup k fields).getD dflt

/-- Python truthiness of a JSON value. -/
def jTruthy : JVal → Bool
  | .jnull => false
  | .jbool b => b
  | .jnum n => n ≠ 0
  | .jstr s => s ≠ ""
  | .jarr elems => !elems.isEmpty
  | .jobj fields => !fields.isEmpty

/-- Truthiness of an optional string (`None` and `""` are falsy). -/
def truthyOptStr : Option String → Bool
  | none => false
  | some s => s ≠ ""

/-- Truthiness of an optional byte payload (`None` and `b""` are falsy). -/
def truthyBytes : Option (List Nat) → Bool
  | none => false
  | some bs => !bs.isEmpty

/-- An HTTP response: `body = none` when the payload is not valid JSON
(so `resp.json()` raises). -/
structure HttpResp where
  status : Nat
  body : Option JVal

/-- The external world one `NutritionAPI` call can observe: each
endpoint's response per input (`none` = the `requests` call raises), and
the configured credentials read from the environment. -/
structure NutritionEnv where
  offResp : String → Option HttpResp
  fooddataResp : String → Option HttpResp
  edamamResp : String → Option HttpResp
  edamamVisionResp : List Nat → Option HttpResp
  nutritionixResp : String → Option HttpResp
  fooddataKey : Option String
  edamamAppId : Option String
  edamamAppKey : Option String
  nutritionixAppId : Option String
  nutritionixApiKey : Option String

/-- `NutritionAPI._format_response`. -/
def formatResponse (data : List (String × JVal)) (source : String) :
    List (String × JVal) :=
  [("source", .jstr source),
   ("calories", dGet data "calories"),
   ("carbs", dGet data "carbohydrates"),
   ("fat", dGet data "fat"),
   ("protein", dGet data "protein"),
   ("sugar", dGet data "sugars"),
   ("raw", .jobj data)]

/-- `NutritionAPI.fetch_from_openfoodfacts`.  Only the `requests.get`
call sits inside `try`; everything after `resp.json()` runs unprotected,
so a 200-status response with an unparseable or ill-shaped payload
raises. -/
def fetchFromOpenfoodfacts (env : NutritionEnv) (barcode : String) :
    Except PyErr (Option (List (String × JVal))) :=
  match env.offResp barcode with
  | none => .ok none
  | some resp =>
    if resp.status = 200 then
      match resp.body with
      | none => .error .jsonDecodeError
      | some j =>
        match j with
        | .jobj m =>
          let product := dGet m "product"
          if jTruthy product then
            match product with
            | .jobj pm =>
              match dGetD pm "nutriments" (.jobj []) with
              | .jobj nm =>
                .ok (some (formatResponse
                  [("calories", dGet nm "energy-kcal_100g"),
                   ("carbohydrates", dGet nm "carbohydrates_100g"),
                   ("fat", dGet nm "fat_100g"),
                   ("protein", dGet nm "proteins_100g"),
                   ("sugars", dGet nm "sugars_100g"),
                   ("product_name", dGet pm "product_name")]
                  "openfoodfacts"))
              | _ => .error .attributeError
            | _ => .error .attributeError
          else .ok none
        | _ => .error .attributeError
    else .ok none

/-- Python `d[k] = v` on an association-list dict (overwrite in place,
else append), used for the dict comprehension in `fetch_from_fooddata`. -/
def dictInsert (fields : List (String × JVal)) (k : String) (v : JVal) :
    List (String × JVal) :=
  if fields.any (fun p => p.1 = k) then
    fields.map (fun p => if p.1 = k then (k, v) else p)
  else fields ++ [(k, v)]

/-- The dict comprehension
`{n.get("name"): n.get("amount") for n in foodNutrients}` of
`fetch_from_fooddata`.  Entries whose `name` is a hashable non-string
(so never equal to the fixed string keys looked up afterwards) are
omitted; a dict or list `name` is unhashable and raises. -/
def buildNutrientDict (acc : List (String × JVal)) :
    List JVal → Except PyErr (List (String × JVal))
  | [] => .ok acc
  | n :: rest =>
    match n with
    | .jobj nm =>
      match dGet nm "name" with
      | .jstr s => buildNutrientDict (dictInsert acc s (dGet nm "amount")) rest
      | .jobj _ => .error .typeError
      | .jarr _ => .error .typeError
      | _ => buildNutrientDict acc rest
    | _ => .error .attributeError

/-- Running the comprehension over the value found under
`"foodNutrients"`: a list iterates its elements; an empty dict or empty
string iterates nothing; a non-empty dict or string yields strings whose
`.get` raises; other values are not iterable. -/
def iterNutrients : JVal → Except PyErr (List (String × JVal))
  | .jarr ns => buildNutrientDict [] ns
  | .jobj fields => if fields.isEmpty then .ok [] else .error .attributeError
  | .jstr s => if s = "" then .ok [] else .error .attributeError
  | _ => .error .typeError

/-- `NutritionAPI.fetch_from_fooddata`. -/
def fetchFromFooddata (env : NutritionEnv) (query : String) :
    Except PyErr (Option (List (String × JVal))) :=
  if !truthyOptStr env.fooddataKey then .ok none
  else
    match env.fooddataResp query with
    | none => .ok none
    | some resp =>
      if resp.status = 200 then
        match resp.body with
        | none => .error .jsonDecodeError
        | some j =>
          match j with
          | .jobj m =>
            let foods := dGet m "foods"
            if jTruthy foods then
              match foods with
              | .jarr (f0 :: _) =>
                match f0 with
                | .jobj fm =>
                  match iterNutrients (dGetD fm "foodNutrients" (.jarr [])) with
                  | .error e => .error e
                  | .ok nd =>
                    .ok (some (formatResponse
                      [("calories", dGet nd "Energy"),
                       ("carbohydrates", dGet nd "Carbohydrate, by difference"),
                       ("fat", dGet nd "Total lipid (fat)"),
                       ("protein", dGet nd "Protein"),
                       ("sugars", dGet nd "Sugars, total"),
                       ("product_name", dGet fm "description")]
                      "fooddata"))
                | _ => .error .attributeError
              | _ => .error .typeError
            else .ok none
          | _ => .error .attributeError
      else .ok none

/-- `NutritionAPI.fetch_from_edamam`. -/
def fetchFromEdamam (env : NutritionEnv) (ingredient : String) :
    Except PyErr (Option (List (String × JVal))) :=
  if !(truthyOptStr env.edamamAppId && truthyOptStr env.edamamAppKey) then
    .ok none
  else
    match env.edamamResp ingredient with
    | none => .ok none
    | some resp =>
      if resp.status = 200 then
        match resp.body with
        | none => .error .jsonDecodeError
        | some j =>
          match j with
          | .jobj m =>
            let hints := dGetD m "hints" (.jarr [])
            if jTruthy hints then
              match hints with
              | .jarr (h0 :: _) =>
                match h0 with
                | .jobj hm =>
                  match dGetD hm "food" (.jobj []) with
                  | .jobj fdm =>
                    match dGetD fdm "nutrients" (.jobj []) with
                    | .jobj nm =>
                      .ok (some (formatResponse
                        [("calories", dGet nm "ENERC_KCAL"),
                         ("carbohydrates", dGet nm "CHOCDF"),
                         ("fat", dGet nm "FAT"),
                         ("protein", dGet nm "PROCNT"),
                         ("sugars", dGet nm "SUGAR"),
                         ("product_name", dGet fdm "label")]
                        "edamam"))
                    | _ => .error .attributeError
                  | _ => .error .attributeError
                | _ => .error .attributeError
              | _ => .error .typeError
            else .ok none
          | _ => .error .attributeError
      else .ok none

/-- `NutritionAPI.fetch_from_edamam_vision`. -/
def fetchFromEdamamVision (env : NutritionEnv) (imageBytes : List Nat) :
    Except PyErr (Option (List (String × JVal))) :=
  if !(truthyOptStr env.edamamAppId && truthyOptStr env.edamamAppKey) then
    .ok none
  else
    match env.edamamVisionResp imageBytes with
    | none => .ok none
    | some resp =>
      if resp.status = 200 then
        match resp.body with
        | none => .error .jsonDecodeError
        | some j =>
          match j with
          | .jobj m =>
            match dGetD m "ingredients" (.jarr [.jobj []]) with
            | .jarr (i0 :: _) =>
              match i0 with
              | .jobj im =>
                let foods := dGetD im "parsed" (.jarr [])
                if jTruthy foods then
                  match foods with
                  | .jarr (f0 :: _) =>
                    match f0 with
                    | .jobj fm =>
                      match dGetD fm "nutrients" (.jobj []) with
                      | .jobj nm =>
                        .ok (some (formatResponse
                          [("calories", dGet nm "ENERC_KCAL"),
                           ("carbohydrates", dGet nm "CHOCDF"),
                           ("fat", dGet nm "FAT"),
                           ("protein", dGet nm "PROCNT"),
                           ("sugars", dGet nm "SUGAR"),
                           ("product_name", dGet fm "food")]
                          "edamam_vision"))
                      | _ => .error .attributeError
                    | _ => .error .attributeError
                  | _ => .error .typeError
                else .ok none
              | _ => .error .attributeError
            | _ => .error .typeError
          | _ => .error .attributeError
      else .ok none

/-- `NutritionAPI.fetch_from_nutritionix`. -/
def fetchFromNutritionix (env : NutritionEnv) (query : String) :
    Except PyErr (Option (List (String × JVal))) :=
  if !(truthyOptStr env.nutritionixAppId && truthyOptStr env.nutritionixApiKey) then
    .ok none
  else
    match env.nutritionixResp query with
    | none => .ok none
    | some resp =>
      if resp.status = 200 then
        match resp.body with
        | none => .error .jsonDecodeError
        | some j =>
          match j with
          | .jobj m =>
            let items := dGet m "foods"
            if jTruthy items then
              match items with
              | .jarr (it0 :: _) =>
                match it0 with
                | .jobj im =>
                  .ok (some (formatResponse
                    [("calories", dGet im "nf_calories"),
                     ("carbohydrates", dGet im "nf_total_carbohydrate"),
                     ("fat", dGet im "nf_total_fat"),
                     ("protein", dGet im "nf_protein"),
                     ("sugars", dGet im "nf_sugars"),
                     ("product_name", dGet im "food_name")]
                    "nutritionix"))
                | _ => .error .attributeError
              | _ => .error .typeError
            else .ok none
          | _ => .error .attributeError
      else .ok none

/-- The per-source branch of the `get_nutrition` loop body: which
adapter (if any) a source id invokes, given which inputs are present. -/
def tryNutritionSource (env : NutritionEnv) (barcode query : Option String)
    (imageBytes : Option (List Nat)) (source : String) :
    Except PyErr (Option (List (String × JVal))) :=
  if source = "openfoodfacts" ∧ truthyOptStr barcode then
    fetchFromOpenfoodfacts env (barcode.getD "")
  else if source = "fooddata" ∧ truthyOptStr query then
    fetchFromFooddata env (query.getD "")
  else if source = "edamam" ∧ truthyOptStr query then
    fetchFromEdamam env (query.getD "")
  else if source = "edamam_vision" ∧ truthyBytes imageBytes then
    fetchFromEdamamVision env (imageBytes.getD [])
  else if source = "nutritionix" ∧ truthyOptStr query then
    fetchFromNutritionix env (query.getD "")
  else .ok none

/-- The default source order of `get_nutrition`. -/
def defaultNutritionSources : List String :=
  ["openfoodfacts", "fooddata", "edamam", "nutritionix"]

/-- The `for source in sources` loop of `get_nutrition`: return the
first truthy (non-empty) result, else the empty payload
`{"source": None, "raw": None}`. -/
def getNutritionLoop (env : NutritionEnv) (barcode query : Option String)
    (imageBytes : Option (List Nat)) :
    List String → Except PyErr (List (String × JVal))
  | [] => .ok [("source", .jnull), ("raw", .jnull)]
  | s :: rest =>
    match tryNutritionSource env barcode query imageBytes s with
    | .error e => .error e
    | .ok (some r) =>
      if r.isEmpty then getNutritionLoop env barcode query imageBytes rest
      else .ok r
    | .ok none => getNutritionLoop env barcode query imageBytes rest

/-- `NutritionAPI.get_nutrition(barcode, query, preferred_sources,
image_bytes)` (`preferred_sources or [...]`: `None` and `[]` both fall
back to the default order). -/
def getNutrition (env : NutritionEnv) (barcode query : Option String)
    (preferredSources : Option (List String))
    (imageBytes : Option (List Nat)) : Except PyErr (List (String × JVal)) :=
  let sources :=
    match preferredSources with
    | some l => if l.isEmpty then defaultNutritionSources else l
    | none => defaultNutritionSources
  getNutritionLoop env barcode query imageBytes sources

/-- Identify two conflict matches up to normalization of the echoed
ingredient string (`find_conflicts_in_graph` copies the caller's
spelling of the ingredient into the match verbatim). -/
def normalizeMatchIngredient (m : ConflictMatch) : ConflictMatch :=
  ⟨pyLowerStrip m.ingredient, m.health_condition, m.relationship, m.severity⟩

/-- A world in which every network request raises and no credentials are
configured. -/
def emptyNutritionEnv : NutritionEnv :=
  ⟨fun _ => none, fun _ => none, fun _ => none, fun _ => none, fun _ => none,
   none, none, none, none, none⟩

/-- A world in which Open Food Facts answers status 200 with a body that
is not valid JSON, so `resp.json()` raises. -/
def malformedOffEnv : NutritionEnv :=
  { emptyNutritionEnv with offResp := fun _ => some ⟨200, none⟩ }

/-- A world in which Open Food Facts answers status 404 (product not
found). -/
def notFoundOffEnv : NutritionEnv :=
  { emptyNutritionEnv with offResp := fun _ => some ⟨404, none⟩ }

/-- A world in which Open Food Facts answers status 200 with a
well-formed product payload. -/
def wellFormedOffEnv : NutritionEnv :=
  { emptyNutritionEnv with
    offResp := fun _ => some ⟨200, some (.jobj
      [("product", .jobj
        [("nutriments", .jobj [("energy-kcal_100g", .jnum 52)]),
         ("product_name", .jstr "Apple")])])⟩ }

/-! ## Helper lemmas -/

theorem mem_buildProviderOrder {s p : String} (hp : p ∈ buildProviderOrder s) :
    p = "gemini" ∨ p = "openai" ∨ p = "mock" := by
  by_cases h1 : pyLower s = "gemini"
  · simp [buildProviderOrder, h1] at hp
    tauto
  · by_cases h2 : pyLower s = "openai"
    · simp [buildProviderOrder, h1, h2] at hp
      tauto
    · simp [buildProviderOrder, h1, h2] at hp
      tauto

theorem buildProviderOrder_ne_nil (s : String) : buildProviderOrder s ≠ [] := by
  unfold buildProviderOrder
  simp

theorem buildProviderOrder_last (s : String) :
    (buildProviderOrder s).getLast? = some "mock" := by
  unfold buildProviderOrder
  exact List.getLast?_concat _

theorem analyzeImageLoop_all_fail (oracle : String → Except String Analysis)
    (err : String → String) :
    ∀ (l : List String) (errors : List String),
      (∀ p ∈ l, p = "gemini" ∨ p = "openai" ∨ p = "mock") →
      (∀ p ∈ l, oracle p = .error (err p)) →
      analyzeImageLoop oracle l errors =
        ⟨"Unknown", 50, "WARNING",
         if (errors ++ l.map (fun p => p ++ ": " ++ err p)).isEmpty then
           ["No provider succeeded"]
         else errors ++ l.map (fun p => p ++ ": " ++ err p)⟩
  | [], errors, _, _ => by simp [analyzeImageLoop]
  | p :: rest, errors, hmem, hfail => by
    have hp := hmem p (by simp)
    have hf := hfail p (by simp)
    have ih := analyzeImageLoop_all_fail oracle err rest (errors ++ [p ++ ": " ++ err p])
      (fun q hq => hmem q (by simp [hq])) (fun q hq => hfail q (by simp [hq]))
    rcases hp with rfl | rfl | rfl <;>
      simp [analyzeImageLoop, hf] <;> simpa using ih

/-- C7: if every attempted vision provider fails, `analyze_image` still
returns a well-formed analysis rather than raising: the health score is
the neutral default 50, the verdict is WARNING, and the warnings list is
non-empty, holding one error string per attempted provider. -/
theorem analyzeImage_total_failure_returns_defaults
    (oracle : String → Except String Analysis) (preferred : String)
    (err : String → String)
    (h : ∀ p ∈ buildProviderOrder preferred, oracle p = .error (err p)) :
    analyzeImage oracle preferred =
      ⟨"Unknown", 50, "WARNING",
       (buildProviderOrder preferred).map (fun p => p ++ ": " ++ err p)⟩ ∧
    (analyzeImage oracle preferred).warnings ≠ [] := by
  have heq := analyzeImageLoop_all_fail oracle err (buildProviderOrder preferred) []
    (fun p hp => mem_buildProviderOrder hp) h
  have hne : (buildProviderOrder preferred).map (fun p => p ++ ": " ++ err p) ≠ [] := by
    intro hc
    exact buildProviderOrder_ne_nil preferred (List.map_eq_nil_iff.mp hc)
  have h1 : analyzeImage oracle preferred =
      ⟨"Unknown", 50, "WARNING",
       (buildProviderOrder preferred).map (fun p => p ++ ": " ++ err p)⟩ := by
    unfold analyzeImage
    rw [heq]
    simp [hne]
  exact ⟨h1, by rw [h1]; exact hne⟩

/-- Witness for C7 at a concrete failing oracle. -/
theorem analyzeImage_total_failure_witness :
    analyzeImage (fun _ => Except.error "down") "gemini" =
      ⟨"Unknown", 50, "WARNING",
       ["gemini: down", "openai: down", "mock: down"]⟩ :=
  (analyzeImage_total_failure_returns_defaults (fun _ => Except.error "down")
    "gemini" (fun _ => "down") (fun _ _ => rfl)).1

/-- C10: for every preferred-provider string the provider order is
duplicate-free and ends with the built-in mock provider, so when gemini
and openai both fail, `analyze_image` returns the mock analysis (product
"Mock Snack", health score 72, verdict WARNING) with the failed
providers' error strings appended after the mock warnings. -/
theorem providerOrder_and_mock_fallback
    (preferred : String) (oracle : String → Except String Analysis)
    (e1 e2 : String)
    (hg : oracle "gemini" = .error e1) (ho : oracle "openai" = .error e2)
    (hm : oracle "mock" = .ok mockAnalysis) :
    (buildProviderOrder preferred).Nodup ∧
    (buildProviderOrder preferred).getLast? = some "mock" ∧
    (analyzeImage oracle preferred =
      { mockAnalysis with
        warnings := mockAnalysis.warnings ++ ["gemini: " ++ e1, "openai: " ++ e2] } ∨
     analyzeImage oracle preferred =
      { mockAnalysis with
        warnings := mockAnalysis.warnings ++ ["openai: " ++ e2, "gemini: " ++ e1] }) := by
  by_cases h2 : pyLower preferred = "openai"
  · have horder : buildProviderOrder preferred = ["openai", "gemini", "mock"] := by
      simp [buildProviderOrder, h2]
    refine ⟨?_, buildProviderOrder_last preferred, Or.inr ?_⟩
    · rw [horder]; decide
    · unfold analyzeImage
      rw [horder]
      simp [analyzeImageLoop, hg, ho, hm, mockAnalysis]
  · have horder : buildProviderOrder preferred = ["gemini", "openai", "mock"] := by
      by_cases h1 : pyLower preferred = "gemini" <;>
        simp [buildProviderOrder, h1, h2]
    refine ⟨?_, buildProviderOrder_last preferred, Or.inl ?_⟩
    · rw [horder]; decide
    · unfold analyzeImage
      rw [horder]
      simp [analyzeImageLoop, hg, ho, hm, mockAnalysis]

/-- Witness for C10 at a concrete oracle where gemini and openai fail
and mock succeeds. -/
theorem providerOrder_and_mock_fallback_witness :
    (buildProviderOrder "Gemini").Nodup ∧
    (buildProviderOrder "Gemini").getLast? = some "mock" ∧
    (analyzeImage
        (fun p => if p = "mock" then .ok mockAnalysis
          else if p = "gemini" then .error "g-err" else .error "o-err") "Gemini" =
      { mockAnalysis with
        warnings := mockAnalysis.warnings ++ ["gemini: g-err", "openai: o-err"] } ∨
     analyzeImage
        (fun p => if p = "mock" then .ok mockAnalysis
          else if p = "gemini" then .error "g-err" else .error "o-err") "Gemini" =
      { mockAnalysis with
        warnings := mockAnalysis.warnings ++ ["openai: o-err", "gemini: g-err"] }) :=
  providerOrder_and_mock_fallback "Gemini"
    (fun p => if p = "mock" then .ok mockAnalysis
      else if p = "gemini" then .error "g-err" else .error "o-err")
    "g-err" "o-err" rfl rfl rfl

/-- C8: when conflict matches are found, the pipeline stores the full
uncapped match list in `health_conflicts` and appends to `warnings`
exactly one line per match for at most the first three matches, in
match order. -/
theorem conflictWarnings_cap_three (r : ScanResult)
    (conflicts : List ConflictMatch) (h : conflicts ≠ []) :
    (applyConflictWarnings r conflicts).health_conflicts = conflicts ∧
    (applyConflictWarnings r conflicts).warnings =
      r.warnings ++ (conflicts.take 3).map conflictWarningLine ∧
    (applyConflictWarnings r conflicts).warnings.length =
      r.warnings.length + min 3 conflicts.length ∧
    ∀ k, k < min 3 conflicts.length →
      (applyConflictWarnings r conflicts).warnings[r.warnings.length + k]? =
        (conflicts[k]?).map conflictWarningLine := by
  have hie : conflicts.isEmpty = false := by
    cases conflicts with
    | nil => exact absurd rfl h
    | cons a l => rfl
  refine ⟨?_, ?_, ?_, ?_⟩
  · simp [applyConflictWarnings, hie]
  · simp [applyConflictWarnings, hie]
  · simp [applyConflictWarnings, hie, Nat.min_comm]
  · intro k hk
    simp only [applyConflictWarnings, hie, Bool.false_eq_true, if_false]
    rw [List.getElem?_append_right (by omega)]
    simp only [Nat.add_sub_cancel_left, List.getElem?_map]
    rw [List.getElem?_take_of_lt (by omega)]

/-- Witness for C8: four matches, one prior warning — exactly the first
three matches produce warning lines. -/
theorem conflictWarnings_cap_three_witness :
    (applyConflictWarnings ⟨"p", 10, "SAFE", ["w0"], []⟩
        [⟨"a", "x", "r1", "high"⟩, ⟨"b", "y", "r2", "low"⟩,
         ⟨"c", "z", "r3", "medium"⟩, ⟨"d", "v", "r4", "high"⟩]).warnings =
      ["w0", "⚠️ a may affect x", "⚠️ b may affect y", "⚠️ c may affect z"] :=
  (conflictWarnings_cap_three ⟨"p", 10, "SAFE", ["w0"], []⟩
    [⟨"a", "x", "r1", "high"⟩, ⟨"b", "y", "r2", "low"⟩,
     ⟨"c", "z", "r3", "medium"⟩, ⟨"d", "v", "r4", "high"⟩] (by decide)).2.1

theorem isPrefixOf_self_chars : ∀ l : List Char, l.isPrefixOf l = true
  | [] => rfl
  | c :: rest => by simp [List.isPrefixOf, isPrefixOf_self_chars rest]

theorem containsSub_self : ∀ l : List Char, containsSub l l = true
  | [] => rfl
  | c :: rest => by simp [containsSub, isPrefixOf_self_chars]

theorem pyIn_self (x : String) : pyIn x x = true :=
  containsSub_self x.toList

theorem containsSub_nil_needle : ∀ hay : List Char, containsSub [] hay = true
  | [] => rfl
  | c :: rest => by simp [containsSub, List.isPrefixOf]

theorem pyIn_empty_needle (s : String) : pyIn "" s = true :=
  containsSub_nil_needle s.toList

theorem findConflicts_singleton (g : HealthGraph) (ing : String)
    (conds : List String) :
    findConflictsInGraph g [ing] conds =
      if nodeMem g (pyLowerStrip ing) then
        (successorsOf g (pyLowerStrip ing)).filterMap (fun succ =>
          if conds.any (fun c => pyIn (pyLower c) (pyLower succ)) then
            some ⟨ing, succ, (edgeDataOf g (pyLowerStrip ing) succ).relationship,
                  (edgeDataOf g (pyLowerStrip ing) succ).severity⟩
          else none)
      else [] := by
  simp [findConflictsInGraph]

theorem findConflicts_cons (g : HealthGraph) (a : String) (as conds : List String) :
    findConflictsInGraph g (a :: as) conds =
      findConflictsInGraph g [a] conds ++ findConflictsInGraph g as conds := by
  simp [findConflictsInGraph]

theorem mem_addEdge (g : HealthGraph) (u v : String) (d : EdgeData) :
    (u, v, d) ∈ addEdge g u v d := by
  unfold addEdge
  split
  · next hany =>
    rcases List.any_eq_true.mp hany with ⟨e, he, hpe⟩
    simp only [decide_eq_true_eq] at hpe
    refine List.mem_map.mpr ⟨e, he, ?_⟩
    simp [hpe.1, hpe.2]
  · simp

theorem addEdge_key_data (g : HealthGraph) (u v : String) (d : EdgeData) :
    ∀ e ∈ addEdge g u v d, e.1 = u → e.2.1 = v → e = (u, v, d) := by
  unfold addEdge
  split
  · next hany =>
    intro e he h1 h2
    rcases List.mem_map.mp he with ⟨e₀, he₀, hfe⟩
    by_cases hp : e₀.1 = u ∧ e₀.2.1 = v
    · simp [hp] at hfe
      exact hfe.symm
    · simp [hp] at hfe
      subst hfe
      exact absurd ⟨h1, h2⟩ hp
  · next hany =>
    intro e he h1 h2
    rcases List.mem_append.mp he with hg | hl
    · exfalso
      have : g.any (fun e => decide (e.1 = u ∧ e.2.1 = v)) = true :=
        List.any_eq_true.mpr ⟨e, hg, by simp [h1, h2]⟩
      simp_all
    · simpa using hl

theorem addEdge_idem (g : HealthGraph) (u v : String) (d : EdgeData) :
    addEdge (addEdge g u v d) u v d = addEdge g u v d := by
  have hany : (addEdge g u v d).any (fun e => decide (e.1 = u ∧ e.2.1 = v)) = true :=
    List.any_eq_true.mpr ⟨(u, v, d), mem_addEdge g u v d, by simp⟩
  conv_lhs => rw [addEdge]
  rw [if_pos hany]
  have : ∀ e ∈ addEdge g u v d,
      (if e.1 = u ∧ e.2.1 = v then (u, v, d) else e) = e := by
    intro e he
    by_cases hp : e.1 = u ∧ e.2.1 = v
    · simp only [hp, if_true]
      exact (addEdge_key_data g u v d e he hp.1 hp.2).symm
    · simp [hp]
  calc (addEdge g u v d).map (fun e => if e.1 = u ∧ e.2.1 = v then (u, v, d) else e)
      = (addEdge g u v d).map id := List.map_congr_left this
    _ = addEdge g u v d := List.map_id _

/-- C1 counterexample: the populated graph has the edge
`sodium → blood_pressure`, yet querying sodium against the caller
condition list `["High Blood Pressure Stage 1"]` returns no match — the
matching is not bidirectional-substring (and the underscore never equals
a space). -/
theorem condition_substring_bidirectional_counterexample :
    findConflictsInGraph populatedHealthGraph ["sodium"]
      ["High Blood Pressure Stage 1"] = [] := by decide

/-- C1 as amended: on a one-edge graph, the match fires exactly when the
lower-cased caller condition occurs as a substring of the lower-cased
edge-condition label — one direction only. -/
theorem condition_substring_one_directional (i e c : String) (d : EdgeData)
    (hi : pyLowerStrip i = i) :
    findConflictsInGraph (addEdge [] i e d) [i] [c] =
      if pyIn (pyLower c) (pyLower e) = true then
        [⟨i, e, d.relationship, d.severity⟩]
      else [] := by
  have hg : addEdge [] i e d = [(i, e, d)] := by simp [addEdge]
  rw [hg, findConflicts_singleton, hi]
  have hnode : nodeMem [(i, e, d)] i = true := by simp [nodeMem]
  rw [if_pos hnode]
  have hsucc : successorsOf [(i, e, d)] i = [e] := by simp [successorsOf]
  rw [hsucc]
  have hedge : edgeDataOf [(i, e, d)] i e = d := by simp [edgeDataOf]
  simp only [List.filterMap, hedge, List.any_cons, List.any_nil, Bool.or_false]
  by_cases hin : pyIn (pyLower c) (pyLower e) = true <;> simp [hin]

/-- Witness for C1 as amended: the caller-condition-inside-edge-label
direction does fire. -/
theorem condition_substring_one_directional_witness :
    findConflictsInGraph
        (addEdge [] "sodium" "blood_pressure" ⟨"increases", "high"⟩)
        ["sodium"] ["Blood_Pressure"] =
      [⟨"sodium", "blood_pressure", "increases", "high"⟩] :=
  condition_substring_one_directional "sodium" "blood_pressure"
    "Blood_Pressure" ⟨"increases", "high"⟩ (by decide)

/-- C4 counterexample: an empty string among the caller conditions does
not yield "no matches" — it is a substring of every label, so it matches
every successor of a recognized ingredient. -/
theorem empty_condition_matches_counterexample :
    findConflictsInGraph populatedHealthGraph ["sodium"] [""] =
      [⟨"sodium", "hypertension", "increases_risk", "high"⟩,
       ⟨"sodium", "blood_pressure", "increases", "high"⟩] ∧
    findConflictsInGraph populatedHealthGraph ["sodium"] [""] ≠ [] :=
  ⟨by decide, by decide⟩

/-- C4 as amended: `find_conflicts_in_graph` never fails (it is a total
function); an unknown ingredient, an ingredient without outgoing edges,
and an empty ingredient string (when the empty string is not a node)
each contribute no matches; but an empty caller-condition string matches
every successor of a recognized ingredient. -/
theorem benign_unknown_and_empty_inputs (g : HealthGraph) (ing : String)
    (conds : List String) :
    (nodeMem g (pyLowerStrip ing) = false →
      findConflictsInGraph g [ing] conds = []) ∧
    (successorsOf g (pyLowerStrip ing) = [] →
      findConflictsInGraph g [ing] conds = []) ∧
    (nodeMem g "" = false → findConflictsInGraph g [""] conds = []) ∧
    ("" ∈ conds →
      (findConflictsInGraph g [ing] conds).length =
        if nodeMem g (pyLowerStrip ing) then
          (successorsOf g (pyLowerStrip ing)).length
        else 0) := by
  refine ⟨?_, ?_, ?_, ?_⟩
  · intro h
    rw [findConflicts_singleton, if_neg]
    simp [h]
  · intro h
    rw [findConflicts_singleton]
    split
    · rw [h]
      rfl
    · rfl
  · intro h
    rw [findConflicts_singleton]
    have hm : pyLowerStrip "" = "" := rfl
    rw [hm, if_neg]
    simp [h]
  · intro h
    rw [findConflicts_singleton]
    by_cases hnode : nodeMem g (pyLowerStrip ing) = true
    · rw [if_pos hnode, if_pos hnode]
      have hfun :
          (fun succ => if conds.any (fun c => pyIn (pyLower c) (pyLower succ)) then
            some (⟨ing, succ, (edgeDataOf g (pyLowerStrip ing) succ).relationship,
                   (edgeDataOf g (pyLowerStrip ing) succ).severity⟩ : ConflictMatch)
            else none) =
          (fun succ =>
            some (⟨ing, succ, (edgeDataOf g (pyLowerStrip ing) succ).relationship,
                   (edgeDataOf g (pyLowerStrip ing) succ).severity⟩ : ConflictMatch)) := by
        funext succ
        have hany : conds.any (fun c => pyIn (pyLower c) (pyLower succ)) = true :=
          List.any_eq_true.mpr ⟨"", h, pyIn_empty_needle (pyLower succ)⟩
        rw [hany]
        rfl
      rw [hfun]
      simp [List.filterMap_eq_map]
    · rw [if_neg hnode, if_neg hnode]
      rfl

/-- Witness for C4 as amended: the spec's own example of an unknown
ingredient, and the empty-condition behaviour on the populated graph. -/
theorem benign_unknown_and_empty_inputs_witness :
    findConflictsInGraph populatedHealthGraph ["unobtainium"] ["hypertension"] = [] ∧
    (findConflictsInGraph populatedHealthGraph ["sodium"] [""]).length = 2 :=
  ⟨(benign_unknown_and_empty_inputs populatedHealthGraph "unobtainium"
      ["hypertension"]).1 (by decide),
   (benign_unknown_and_empty_inputs populatedHealthGraph "sodium"
      [""]).2.2.2 (by decide)⟩

theorem any_pyLower_congr {conds conds' : List String}
    (h : conds.map pyLower = conds'.map pyLower) (x : String) :
    conds.any (fun c => pyIn (pyLower c) x) =
      conds'.any (fun c => pyIn (pyLower c) x) := by
  have h1 : (conds.map pyLower).any (fun cl => pyIn cl x) =
      (conds'.map pyLower).any (fun cl => pyIn cl x) := by rw [h]
  simpa [List.any_map, Function.comp] using h1

/-- C5 counterexample: caller conditions are lower-cased but NOT
whitespace-trimmed before the substring comparison, so surrounding
whitespace on a caller condition changes which pairs are matched. -/
theorem condition_whitespace_counterexample :
    findConflictsInGraph populatedHealthGraph ["sodium"] ["hypertension"] =
      [⟨"sodium", "hypertension", "increases_risk", "high"⟩] ∧
    findConflictsInGraph populatedHealthGraph ["sodium"] [" hypertension "] = [] :=
  ⟨by decide, by decide⟩

/-- C5 as amended: letter case and surrounding whitespace on the
ingredients, and letter case (but not surrounding whitespace) on the
caller conditions, do not change which (ingredient, condition) pairs are
matched: two queries whose ingredient lists agree after
case-folding-and-trimming and whose condition lists agree after
case-folding alone return the same matches up to normalization of the
echoed ingredient spelling. -/
theorem findConflicts_norm_invariant (g : HealthGraph) :
    ∀ (ings ings' conds conds' : List String),
      ings.map pyLowerStrip = ings'.map pyLowerStrip →
      conds.map pyLower = conds'.map pyLower →
      (findConflictsInGraph g ings conds).map normalizeMatchIngredient =
        (findConflictsInGraph g ings' conds').map normalizeMatchIngredient
  | [], ings', conds, conds', hi, _ => by
    cases ings' with
    | nil => rfl
    | cons b bs => simp at hi
  | a :: as, ings', conds, conds', hi, hc => by
    cases ings' with
    | nil => simp at hi
    | cons a' as' =>
      simp only [List.map_cons, List.cons.injEq] at hi
      obtain ⟨ha, has⟩ := hi
      have ih := findConflicts_norm_invariant g as as' conds conds' has hc
      rw [findConflicts_cons g a as conds, findConflicts_cons g a' as' conds',
        List.map_append, List.map_append, ih]
      congr 1
      rw [findConflicts_singleton, findConflicts_singleton, ha]
      by_cases hnode : nodeMem g (pyLowerStrip a') = true
      · rw [if_pos hnode, if_pos hnode, List.map_filterMap, List.map_filterMap]
        have hfun :
            (fun succ =>
              (if conds.any (fun c => pyIn (pyLower c) (pyLower succ)) then
                some (⟨a, succ,
                  (edgeDataOf g (pyLowerStrip a') succ).relationship,
                  (edgeDataOf g (pyLowerStrip a') succ).severity⟩ : ConflictMatch)
               else none).map normalizeMatchIngredient) =
            (fun succ =>
              (if conds'.any (fun c => pyIn (pyLower c) (pyLower succ)) then
                some (⟨a', succ,
                  (edgeDataOf g (pyLowerStrip a') succ).relationship,
                  (edgeDataOf g (pyLowerStrip a') succ).severity⟩ : ConflictMatch)
               else none).map normalizeMatchIngredient) := by
          funext succ
          rw [any_pyLower_congr hc (pyLower succ)]
          by_cases hin : conds'.any (fun c => pyIn (pyLower c) (pyLower succ)) = true
          · rw [hin]
            simp [normalizeMatchIngredient, ha]
          · rw [Bool.of_not_eq_true hin]
            rfl
        rw [hfun]
      · rw [if_neg hnode, if_neg hnode]

/-- Witness for C5 as amended: the spec's concrete example,
`[" Sodium "], ["HYPERTENSION"]` versus `["sodium"], ["hypertension"]`. -/
theorem findConflicts_norm_invariant_witness :
    (findConflictsInGraph populatedHealthGraph [" Sodium "]
        ["HYPERTENSION"]).map normalizeMatchIngredient =
      (findConflictsInGraph populatedHealthGraph ["sodium"]
        ["hypertension"]).map normalizeMatchIngredient :=
  findConflicts_norm_invariant populatedHealthGraph [" Sodium "] ["sodium"]
    ["HYPERTENSION"] ["hypertension"] (by decide) (by decide)

/-- C6 counterexample: `add_relationship` trims the condition key before
storage, but `find_conflicts_in_graph` compares caller conditions
untrimmed, so for a condition with surrounding whitespace the round trip
returns no match instead of exactly one. -/
theorem addRelationship_roundtrip_counterexample :
    findConflictsInGraph
        (addRelationship [] "sodium" " hypertension " "increases_risk" "high")
        ["sodium"] [" hypertension "] = [] := by decide

/-- C6 as amended: re-inserting the same relationship is idempotent
(last-write-wins, one edge per ordered pair), and — provided the
condition argument is already normalized (lower-case, no surrounding
whitespace) and differs from the normalized ingredient — the round trip
returns exactly one match while the role-reversed query returns none. -/
theorem addRelationship_idem_directed (i c r s : String)
    (hc : pyLowerStrip c = c) (hne : pyLowerStrip i ≠ c) :
    (∀ g : HealthGraph,
      addRelationship (addRelationship g i c r s) i c r s =
        addRelationship g i c r s) ∧
    addRelationship [] i c r s = [(pyLowerStrip i, c, ⟨r, s⟩)] ∧
    findConflictsInGraph (addRelationship [] i c r s) [i] [c] =
      [⟨i, c, r, s⟩] ∧
    findConflictsInGraph (addRelationship [] i c r s) [c] [i] = [] := by
  have hedge : addRelationship [] i c r s = [(pyLowerStrip i, c, ⟨r, s⟩)] := by
    simp [addRelationship, addEdge, hc]
  refine ⟨fun g => addEdge_idem g _ _ _, hedge, ?_, ?_⟩
  · rw [hedge, findConflicts_singleton]
    have hnode : nodeMem [(pyLowerStrip i, c, ⟨r, s⟩)] (pyLowerStrip i) = true := by
      simp [nodeMem]
    rw [if_pos hnode]
    have hsucc : successorsOf [(pyLowerStrip i, c, ⟨r, s⟩)] (pyLowerStrip i) =
        [c] := by
      simp [successorsOf]
    rw [hsucc]
    simp [List.filterMap, edgeDataOf, pyIn_self]
  · rw [hedge, findConflicts_singleton, hc]
    have hnode : nodeMem [(pyLowerStrip i, c, ⟨r, s⟩)] c = true := by
      simp [nodeMem]
    rw [if_pos hnode]
    have hsucc : successorsOf [(pyLowerStrip i, c, ⟨r, s⟩)] c = [] := by
      simp [successorsOf, hne]
    rw [hsucc]
    rfl

/-- Witness for C6 as amended, at the spec's own example edge. -/
theorem addRelationship_idem_directed_witness :
    findConflictsInGraph
        (addRelationship [] "sodium" "hypertension" "increases_risk" "high")
        ["sodium"] ["hypertension"] =
      [⟨"sodium", "hypertension", "increases_risk", "high"⟩] ∧
    findConflictsInGraph
        (addRelationship [] "sodium" "hypertension" "increases_risk" "high")
        ["hypertension"] ["sodium"] = [] :=
  ⟨(addRelationship_idem_directed "sodium" "hypertension" "increases_risk"
      "high" (by decide) (by decide)).2.2.1,
   (addRelationship_idem_directed "sodium" "hypertension" "increases_risk"
      "high" (by decide) (by decide)).2.2.2⟩

theorem formatResponse_source (data : List (String × JVal)) (src : String) :
    dGet (formatResponse data src) "source" = .jstr src := rfl

theorem formatResponse_keys (data : List (String × JVal)) (src : String) :
    (formatResponse data src).map Prod.fst =
      ["source", "calories", "carbs", "fat", "protein", "sugar", "raw"] := rfl

theorem formatResponse_isEmpty (data : List (String × JVal)) (src : String) :
    (formatResponse data src).isEmpty = false := rfl

theorem fetchFromOpenfoodfacts_ok_shape {env : NutritionEnv} {barcode : String}
    {r : List (String × JVal)}
    (h : fetchFromOpenfoodfacts env barcode = .ok (some r)) :
    ∃ data, r = formatResponse data "openfoodfacts" := by
  unfold fetchFromOpenfoodfacts at h
  repeat' first
    | split at h
    | dsimp only at h
  all_goals simp at h
  all_goals exact ⟨_, h.symm⟩

theorem fetchFromFooddata_ok_shape {env : NutritionEnv} {query : String}
    {r : List (String × JVal)}
    (h : fetchFromFooddata env query = .ok (some r)) :
    ∃ data, r = formatResponse data "fooddata" := by
  unfold fetchFromFooddata at h
  repeat' first
    | split at h
    | dsimp only at h
  all_goals simp at h
  all_goals exact ⟨_, h.symm⟩

theorem fetchFromEdamam_ok_shape {env : NutritionEnv} {ingredient : String}
    {r : List (String × JVal)}
    (h : fetchFromEdamam env ingredient = .ok (some r)) :
    ∃ data, r = formatResponse data "edamam" := by
  unfold fetchFromEdamam at h
  repeat' first
    | split at h
    | dsimp only at h
  all_goals simp at h
  all_goals exact ⟨_, h.symm⟩

theorem fetchFromEdamamVision_ok_shape {env : NutritionEnv}
    {imageBytes : List Nat} {r : List (String × JVal)}
    (h : fetchFromEdamamVision env imageBytes = .ok (some r)) :
    ∃ data, r = formatResponse data "edamam_vision" := by
  unfold fetchFromEdamamVision at h
  repeat' first
    | split at h
    | dsimp only at h
  all_goals simp at h
  all_goals exact ⟨_, h.symm⟩

theorem fetchFromNutritionix_ok_shape {env : NutritionEnv} {query : String}
    {r : List (String × JVal)}
    (h : fetchFromNutritionix env query = .ok (some r)) :
    ∃ data, r = formatResponse data "nutritionix" := by
  unfold fetchFromNutritionix at h
  repeat' first
    | split at h
    | dsimp only at h
  all_goals simp at h
  all_goals exact ⟨_, h.symm⟩

theorem tryNutritionSource_ok_shape {env : NutritionEnv}
    {barcode query : Option String} {imageBytes : Option (List Nat)}
    {s : String} {r : List (String × JVal)}
    (h : tryNutritionSource env barcode query imageBytes s = .ok (some r)) :
    ∃ data, r = formatResponse data s := by
  unfold tryNutritionSource at h
  split at h
  · next hguard => exact hguard.1 ▸ fetchFromOpenfoodfacts_ok_shape h
  · split at h
    · next hguard => exact hguard.1 ▸ fetchFromFooddata_ok_shape h
    · split at h
      · next hguard => exact hguard.1 ▸ fetchFromEdamam_ok_shape h
      · split at h
        · next hguard => exact hguard.1 ▸ fetchFromEdamamVision_ok_shape h
        · split at h
          · next hguard => exact hguard.1 ▸ fetchFromNutritionix_ok_shape h
          · exact absurd h (by simp)

theorem getNutritionLoop_all_none (env : NutritionEnv)
    (b q : Option String) (i : Option (List Nat)) :
    ∀ srcs : List String,
      (∀ s ∈ srcs, tryNutritionSource env b q i s = .ok none) →
      getNutritionLoop env b q i srcs = .ok [("source", .jnull), ("raw", .jnull)]
  | [], _ => rfl
  | s :: rest, h => by
    have hs := h s (by simp)
    have ih := getNutritionLoop_all_none env b q i rest
      (fun s' hs' => h s' (by simp [hs']))
    simp [getNutritionLoop, hs, ih]

theorem getNutritionLoop_first_some (env : NutritionEnv)
    (b q : Option String) (i : Option (List Nat)) :
    ∀ (pre : List String) (s : String) (post : List String)
      (r : List (String × JVal)),
      (∀ s' ∈ pre, tryNutritionSource env b q i s' = .ok none) →
      tryNutritionSource env b q i s = .ok (some r) →
      getNutritionLoop env b q i (pre ++ s :: post) = .ok r
  | [], s, post, r, _, hs => by
    have hne : r.isEmpty = false := by
      obtain ⟨d, rfl⟩ := tryNutritionSource_ok_shape hs
      rfl
    simp [getNutritionLoop, hs, hne]
  | p :: pre, s, post, r, hpre, hs => by
    have hp := hpre p (by simp)
    have ih := getNutritionLoop_first_some env b q i pre s post r
      (fun s' h' => hpre s' (by simp [h'])) hs
    simp [getNutritionLoop, hp, ih]

/-- C2: `get_nutrition` iterates the supplied preferred sources in
order; a source whose required input is missing is skipped (yields no
result); the first source with a truthy result is returned as-is, and
its `source` field is that provider's id; when every source yields no
result the empty payload with a null `source` and null nutrient reads is
returned. -/
theorem getNutrition_resolver_contract (env : NutritionEnv)
    (b q : Option String) (i : Option (List Nat)) (l : List String)
    (hl : l ≠ []) :
    ((∀ s ∈ l, tryNutritionSource env b q i s = .ok none) →
      getNutrition env b q (some l) i =
        .ok [("source", .jnull), ("raw", .jnull)] ∧
      dGet [(("source" : String), JVal.jnull), ("raw", JVal.jnull)]
        "source" = .jnull ∧
      ∀ k ∈ ["calories", "carbs", "fat", "protein", "sugar"],
        dGet [(("source" : String), JVal.jnull), ("raw", JVal.jnull)]
          k = .jnull) ∧
    (∀ (pre : List String) (s : String) (post : List String)
       (r : List (String × JVal)),
      l = pre ++ s :: post →
      (∀ s' ∈ pre, tryNutritionSource env b q i s' = .ok none) →
      tryNutritionSource env b q i s = .ok (some r) →
      getNutrition env b q (some l) i = .ok r ∧
      dGet r "source" = .jstr s) ∧
    (truthyOptStr b = false →
      tryNutritionSource env b q i "openfoodfacts" = .ok none) ∧
    (truthyOptStr q = false →
      tryNutritionSource env b q i "fooddata" = .ok none ∧
      tryNutritionSource env b q i "edamam" = .ok none ∧
      tryNutritionSource env b q i "nutritionix" = .ok none) ∧
    (truthyBytes i = false →
      tryNutritionSource env b q i "edamam_vision" = .ok none) := by
  have hle : l.isEmpty = false := by
    cases l with
    | nil => exact absurd rfl hl
    | cons a t => rfl
  have hsources : getNutrition env b q (some l) i = getNutritionLoop env b q i l := by
    unfold getNutrition
    simp [hle]
  refine ⟨fun hall => ⟨?_, rfl, ?_⟩,
    fun pre s post r hsplit hpre hs => ⟨?_, ?_⟩, ?_, ?_, ?_⟩
  · rw [hsources]
    exact getNutritionLoop_all_none env b q i l hall
  · intro k hk
    fin_cases hk <;> rfl
  · rw [hsources, hsplit]
    exact getNutritionLoop_first_some env b q i pre s post r hpre hs
  · obtain ⟨d, rfl⟩ := tryNutritionSource_ok_shape hs
    exact formatResponse_source d s
  · intro hb
    simp [tryNutritionSource, hb]
  · intro hq
    refine ⟨?_, ?_, ?_⟩ <;> simp [tryNutritionSource, hq]
  · intro hi
    simp [tryNutritionSource, hi]

/-- Witness for C2: a two-source order where the first source lacks its
required input (a query) and the second succeeds from a barcode. -/
theorem getNutrition_resolver_contract_witness :
    getNutrition wellFormedOffEnv (some "123") none
        (some ["fooddata", "openfoodfacts"]) none =
      .ok (formatResponse
        [("calories", JVal.jnum 52), ("carbohydrates", JVal.jnull),
         ("fat", JVal.jnull), ("protein", JVal.jnull),
         ("sugars", JVal.jnull), ("product_name", JVal.jstr "Apple")]
        "openfoodfacts") ∧
    dGet (formatResponse
        [("calories", JVal.jnum 52), ("carbohydrates", JVal.jnull),
         ("fat", JVal.jnull), ("protein", JVal.jnull),
         ("sugars", JVal.jnull), ("product_name", JVal.jstr "Apple")]
        "openfoodfacts") "source" = .jstr "openfoodfacts" :=
  (getNutrition_resolver_contract wellFormedOffEnv (some "123") none none
      ["fooddata", "openfoodfacts"] (by simp)).2.1
    ["fooddata"] "openfoodfacts" []
    (formatResponse
      [("calories", JVal.jnum 52), ("carbohydrates", JVal.jnull),
       ("fat", JVal.jnull), ("protein", JVal.jnull),
       ("sugars", JVal.jnull), ("product_name", JVal.jstr "Apple")]
      "openfoodfacts")
    rfl
    (by intro s' hs'; simp only [List.mem_singleton] at hs'; subst hs'; rfl)
    rfl

/-- C3 counterexample: `resp.json()` runs outside the `try` block, so a
200-status response whose body is not parseable JSON raises inside
`fetch_from_openfoodfacts`, and the exception propagates out of
`get_nutrition`. -/
theorem malformed_payload_raises_counterexample :
    fetchFromOpenfoodfacts malformedOffEnv "123" = .error .jsonDecodeError ∧
    getNutrition malformedOffEnv (some "123") none none none =
      .error .jsonDecodeError :=
  ⟨rfl, rfl⟩

/-- C3 as amended: every adapter turns request-time network failures,
missing credentials, and non-200 statuses into a no-result value without
raising; an exception can arise only while handling a response whose
status is 200 (that is, while parsing its payload). -/
theorem fetch_failures_degrade_to_no_result (env : NutritionEnv) :
    ((∀ b, env.offResp b = none → fetchFromOpenfoodfacts env b = .ok none) ∧
     (∀ b resp, env.offResp b = some resp → resp.status ≠ 200 →
       fetchFromOpenfoodfacts env b = .ok none) ∧
     (∀ b e, fetchFromOpenfoodfacts env b = .error e →
       ∃ resp, env.offResp b = some resp ∧ resp.status = 200)) ∧
    ((truthyOptStr env.fooddataKey = false →
       ∀ x, fetchFromFooddata env x = .ok none) ∧
     (∀ x, env.fooddataResp x = none → fetchFromFooddata env x = .ok none) ∧
     (∀ x resp, env.fooddataResp x = some resp → resp.status ≠ 200 →
       fetchFromFooddata env x = .ok none) ∧
     (∀ x e, fetchFromFooddata env x = .error e →
       ∃ resp, env.fooddataResp x = some resp ∧ resp.status = 200)) ∧
    (((truthyOptStr env.edamamAppId && truthyOptStr env.edamamAppKey) = false →
       ∀ x, fetchFromEdamam env x = .ok none) ∧
     (∀ x, env.edamamResp x = none → fetchFromEdamam env x = .ok none) ∧
     (∀ x resp, env.edamamResp x = some resp → resp.status ≠ 200 →
       fetchFromEdamam env x = .ok none) ∧
     (∀ x e, fetchFromEdamam env x = .error e →
       ∃ resp, env.edamamResp x = some resp ∧ resp.status = 200)) ∧
    (((truthyOptStr env.edamamAppId && truthyOptStr env.edamamAppKey) = false →
       ∀ x, fetchFromEdamamVision env x = .ok none) ∧
     (∀ x, env.edamamVisionResp x = none →
       fetchFromEdamamVision env x = .ok none) ∧
     (∀ x resp, env.edamamVisionResp x = some resp → resp.status ≠ 200 →
       fetchFromEdamamVision env x = .ok none) ∧
     (∀ x e, fetchFromEdamamVision env x = .error e →
       ∃ resp, env.edamamVisionResp x = some resp ∧ resp.status = 200)) ∧
    (((truthyOptStr env.nutritionixAppId &&
        truthyOptStr env.nutritionixApiKey) = false →
       ∀ x, fetchFromNutritionix env x = .ok none) ∧
     (∀ x, env.nutritionixResp x = none →
       fetchFromNutritionix env x = .ok none) ∧
     (∀ x resp, env.nutritionixResp x = some resp → resp.status ≠ 200 →
       fetchFromNutritionix env x = .ok none) ∧
     (∀ x e, fetchFromNutritionix env x = .error e →
       ∃ resp, env.nutritionixResp x = some resp ∧ resp.status = 200)) := by
  refine ⟨⟨?_, ?_, ?_⟩, ⟨?_, ?_, ?_, ?_⟩, ⟨?_, ?_, ?_, ?_⟩,
    ⟨?_, ?_, ?_, ?_⟩, ⟨?_, ?_, ?_, ?_⟩⟩
  · intro b h
    simp [fetchFromOpenfoodfacts, h]
  · intro b resp h hs
    simp [fetchFromOpenfoodfacts, h, hs]
  · intro b e h
    rcases henv : env.offResp b with _ | resp
    · unfold fetchFromOpenfoodfacts at h
      simp [henv] at h
    · by_cases h200 : resp.status = 200
      · exact ⟨resp, rfl, h200⟩
      · unfold fetchFromOpenfoodfacts at h
        simp [henv, h200] at h
  · intro hk x
    simp [fetchFromFooddata, hk]
  · intro x h
    simp [fetchFromFooddata, h]
  · intro x resp h hs
    simp [fetchFromFooddata, h, hs]
  · intro x e h
    unfold fetchFromFooddata at h
    cases hkey : truthyOptStr env.fooddataKey with
    | false => simp [hkey] at h
    | true =>
      rcases henv : env.fooddataResp x with _ | resp
      · simp [hkey, henv] at h
      · by_cases h200 : resp.status = 200
        · exact ⟨resp, rfl, h200⟩
        · simp [hkey, henv, h200] at h
  · intro hk x
    simp [fetchFromEdamam, hk]
  · intro x h
    simp [fetchFromEdamam, h]
  · intro x resp h hs
    simp [fetchFromEdamam, h, hs]
  · intro x e h
    unfold fetchFromEdamam at h
    cases hkey : (truthyOptStr env.edamamAppId && truthyOptStr env.edamamAppKey) with
    | false => simp [hkey] at h
    | true =>
      rcases henv : env.edamamResp x with _ | resp
      · simp [hkey, henv] at h
      · by_cases h200 : resp.status = 200
        · exact ⟨resp, rfl, h200⟩
        · simp [hkey, henv, h200] at h
  · intro hk x
    simp [fetchFromEdamamVision, hk]
  · intro x h
    simp [fetchFromEdamamVision, h]
  · intro x resp h hs
    simp [fetchFromEdamamVision, h, hs]
  · intro x e h
    unfold fetchFromEdamamVision at h
    cases hkey : (truthyOptStr env.edamamAppId && truthyOptStr env.edamamAppKey) with
    | false => simp [hkey] at h
    | true =>
      rcases henv : env.edamamVisionResp x with _ | resp
      · simp [hkey, henv] at h
      · by_cases h200 : resp.status = 200
        · exact ⟨resp, rfl, h200⟩
        · simp [hkey, henv, h200] at h
  · intro hk x
    simp [fetchFromNutritionix, hk]
  · intro x h
    simp [fetchFromNutritionix, h]
  · intro x resp h hs
    simp [fetchFromNutritionix, h, hs]
  · intro x e h
    unfold fetchFromNutritionix at h
    cases hkey : (truthyOptStr env.nutritionixAppId &&
        truthyOptStr env.nutritionixApiKey) with
    | false => simp [hkey] at h
    | true =>
      rcases henv : env.nutritionixResp x with _ | resp
      · simp [hkey, henv] at h
      · by_cases h200 : resp.status = 200
        · exact ⟨resp, rfl, h200⟩
        · simp [hkey, henv, h200] at h

/-- Witness for C3 as amended: a raised request and a 404 response are
both answered with a no-result value. -/
theorem fetch_failures_degrade_witness :
    fetchFromOpenfoodfacts emptyNutritionEnv "000" = .ok none ∧
    fetchFromOpenfoodfacts notFoundOffEnv "000" = .ok none :=
  ⟨(fetch_failures_degrade_to_no_result emptyNutritionEnv).1.1 "000" rfl,
   (fetch_failures_degrade_to_no_result notFoundOffEnv).1.2.1 "000"
     ⟨404, none⟩ rfl (by decide)⟩

theorem getNutritionLoop_ok_shape (env : NutritionEnv)
    (b q : Option String) (i : Option (List Nat)) :
    ∀ (srcs : List String) (r : List (String × JVal)),
      getNutritionLoop env b q i srcs = .ok r →
      r = [("source", .jnull), ("raw", .jnull)] ∨
        ∃ data s, r = formatResponse data s
  | [], r, h => by
    left
    simpa [getNutritionLoop] using h.symm
  | s :: rest, r, h => by
    unfold getNutritionLoop at h
    cases htry : tryNutritionSource env b q i s with
    | error e =>
      rw [htry] at h
      simp at h
    | ok o =>
      cases o with
      | none =>
        rw [htry] at h
        exact getNutritionLoop_ok_shape env b q i rest r h
      | some r' =>
        rw [htry] at h
        dsimp only at h
        by_cases hie : r'.isEmpty = true
        · rw [if_pos hie] at h
          exact getNutritionLoop_ok_shape env b q i rest r h
        · rw [if_neg hie] at h
          simp at h
          obtain ⟨d, rfl⟩ := tryNutritionSource_ok_shape htry
          exact Or.inr ⟨d, s, h.symm⟩

/-- C9: a snapshot returned by `get_nutrition` never carries a
`confidence` (or `cached`) key — the keys are exactly those written by
`_format_response`, or the two keys of the empty payload — contradicting
the spec's NutrientSnapshot contract, which the UI layer
(`camera_view.py`) also relies on by importing `get_pre_confidence` from
this module and reading `snapshot.get("confidence")`. -/
theorem getNutrition_no_confidence_key (env : NutritionEnv)
    (b q : Option String) (p : Option (List String)) (i : Option (List Nat))
    (r : List (String × JVal)) (h : getNutrition env b q p i = .ok r) :
    "confidence" ∉ r.map Prod.fst ∧ "cached" ∉ r.map Prod.fst := by
  have hshape := getNutritionLoop_ok_shape env b q i _ r
    (by unfold getNutrition at h; exact h)
  rcases hshape with rfl | ⟨d, s, rfl⟩
  · exact ⟨by decide, by decide⟩
  · refine ⟨?_, ?_⟩ <;> rw [formatResponse_keys] <;> decide

/-- Witness for C9 at a successful concrete lookup. -/
theorem getNutrition_no_confidence_key_witness :
    "confidence" ∉ (formatResponse
        [("calories", JVal.jnum 52), ("carbohydrates", JVal.jnull),
         ("fat", JVal.jnull), ("protein", JVal.jnull),
         ("sugars", JVal.jnull), ("product_name", JVal.jstr "Apple")]
        "openfoodfacts").map Prod.fst ∧
    "cached" ∉ (formatResponse
        [("calories", JVal.jnum 52), ("carbohydrates", JVal.jnull),
         ("fat", JVal.jnull), ("protein", JVal.jnull),
         ("sugars", JVal.jnull), ("product_name", JVal.jstr "Apple")]
        "openfoodfacts").map Prod.fst :=
  getNutrition_no_confidence_key wellFormedOffEnv (some "123") none none none
    (formatResponse
      [("calories", JVal.jnum 52), ("carbohydrates", JVal.jnull),
       ("fat", JVal.jnull), ("protein", JVal.jnull),
       ("sugars", JVal.jnull), ("product_name", JVal.jstr "Apple")]
      "openfoodfacts")
    rfl
